import Mathlib

/-!
Verification of the whitebox launcher/kernel core: the Windows kernel message
loop (src/kernel/main_win.cc), the SDL/POSIX message loop
(src/whitebox-kernel/main.cc), the boot-manager loader hand-off
(src/apps/half-life-2/hl2_exe_main_win.cc, src/unnamed/part_003), the input
queue bridge, the insecure-flag command-line handling, and ScopedNewHandler
(src/base/include/scoped_new_handler.h).
-/

namespace Whitebox

/-- A platform message as pumped by the kernel message dispatcher: either a
quit message carrying an exit code (WM_QUIT, code in wParam) or any other
message, identified abstractly. -/
inductive Msg : Type where
  | quit (code : Int) : Msg
  | other (id : Nat) : Msg
deriving DecidableEq

/-- Modelled from the spec: the message pump step of
PeekMessageDispatcher.Dispatch (the dispatcher implementation is not under
src/).  It pumps every currently pending message of the burst in order and
hands each to the post-dispatch handler; DispatchMessages passes
handle_quit_message (src/kernel/main_win.cc), which captures a quit message
code, and any messages after the quit in the same burst are ignored.  Returns
the captured quit code when the burst contains a quit message. -/
def pumpBurst : List Msg → Option Int
  | [] => none
  | Msg.quit c :: _ => some c
  | Msg.other _ :: rest => pumpBurst rest

/-- What one PeekMessageDispatcher.Dispatch call yields as observed by the
loop in src/kernel/main_win.cc: either a burst of pumped messages (return
value std::nullopt, no error) or an abnormal dispatch condition carrying a
platform error code (return value a std::error_code). -/
inductive DispatchResult : Type where
  | msgs (burst : List Msg) : DispatchResult
  | error (ec : Int) : DispatchResult
deriving DecidableEq

/-- The environment of one iteration of the DispatchMessages loop: what the
dispatcher returns in that iteration and what HighResolutionClock.now reads
when the iteration computes its frame time. -/
structure IterationInput : Type where
  dispatch : DispatchResult
  now : Int
deriving DecidableEq

/-- Observable outcome of a DispatchMessages run over a finite script of
iteration inputs: the exit code (none when the script is exhausted while the
loop is still running), the delta times passed to SimulateWorldStep in call
order, and the number of warnings logged at the dispatch-error site (the
G3PLOGE2_IF(WARNING, rc) line, which logs exactly when the error code is
non-zero). -/
structure LoopRun : Type where
  exitCode : Option Int
  simDeltas : List Int
  dispatchWarnings : Nat
deriving DecidableEq

/-- The main message loop of src/kernel/main_win.cc (DispatchMessages),
embedded over a finite script of iteration inputs.  It mirrors the source
control flow exactly: while !is_done, call Dispatch (which feeds each message
to handle_quit_message, setting exit_code and is_done on WM_QUIT); if Dispatch
reported an error code, log a warning when the code is non-zero, capture the
code and break; otherwise compute delta_time = now - loop_iteration_start_time,
update loop_iteration_start_time and call SimulateWorldStep — note this
happens even when the burst just pumped contained the quit message, because
the while condition is only rechecked at the top of the loop. -/
def DispatchMessages : Int → List IterationInput → LoopRun
  | _, [] => { exitCode := none, simDeltas := [], dispatchWarnings := 0 }
  | last, it :: rest =>
    match it.dispatch with
    | DispatchResult.error ec =>
        { exitCode := some ec, simDeltas := [],
          dispatchWarnings := if ec = 0 then 0 else 1 }
    | DispatchResult.msgs burst =>
      match pumpBurst burst with
      | some c =>
          { exitCode := some c, simDeltas := [it.now - last],
            dispatchWarnings := 0 }
      | none =>
          let r := DispatchMessages it.now rest
          { exitCode := r.exitCode,
            simDeltas := (it.now - last) :: r.simDeltas,
            dispatchWarnings := r.dispatchWarnings }

/-- Total warnings logged by one DispatchMessages run: the per-iteration
dispatch-error site plus the terminal G3LOG_IF(WARNING, exit_code != 0) line,
which only executes when the loop actually returns. -/
def totalWarnings (r : LoopRun) : Nat :=
  r.dispatchWarnings +
    match r.exitCode with
    | some c => if c = 0 then 0 else 1
    | none => 0

/-- An iteration in which the dispatcher reports no abnormal condition and
pumps no quit message: the loop performs its timing bookkeeping and exactly
one simulation step and keeps running. -/
def isQuietIteration (it : IterationInput) : Bool :=
  match it.dispatch with
  | DispatchResult.msgs burst => (pumpBurst burst).isNone
  | DispatchResult.error _ => false

/-- The delta times a run of quiet iterations passes to SimulateWorldStep,
starting from a given loop_iteration_start_time: successive clock
differences. -/
def normalDeltas : Int → List IterationInput → List Int
  | _, [] => []
  | last, it :: rest => (it.now - last) :: normalDeltas it.now rest

/-- The value of loop_iteration_start_time after the given iterations ran. -/
def lastStartAfter (last : Int) (its : List IterationInput) : Int :=
  its.foldl (fun _ it => it.now) last

theorem lastStartAfter_nil (last : Int) : lastStartAfter last [] = last := rfl

theorem lastStartAfter_cons (last : Int) (it : IterationInput)
    (its : List IterationInput) :
    lastStartAfter last (it :: its) = lastStartAfter it.now its := rfl

/-- Unfolding lemma: a quiet iteration contributes one simulation step and the
run continues with the updated start time. -/
theorem DispatchMessages_cons_quiet (last : Int) (it : IterationInput)
    (rest : List IterationInput) (hit : isQuietIteration it = true) :
    DispatchMessages last (it :: rest) =
      { exitCode := (DispatchMessages it.now rest).exitCode,
        simDeltas := (it.now - last) :: (DispatchMessages it.now rest).simDeltas,
        dispatchWarnings := (DispatchMessages it.now rest).dispatchWarnings } := by
  cases hd : it.dispatch with
  | error ec =>
      simp [isQuietIteration, hd] at hit
  | msgs burst =>
      simp only [isQuietIteration, hd] at hit
      cases hp : pumpBurst burst with
      | some c => simp [hp, Option.isNone] at hit
      | none => simp [DispatchMessages, hd, hp]

/-- A prefix of quiet iterations runs through: each contributes its delta time,
and the run continues on the remaining script with the updated start time. -/
theorem DispatchMessages_quiet_append (last : Int) (pre rest : List IterationInput)
    (h : ∀ it ∈ pre, isQuietIteration it = true) :
    DispatchMessages last (pre ++ rest) =
      { exitCode := (DispatchMessages (lastStartAfter last pre) rest).exitCode,
        simDeltas :=
          normalDeltas last pre ++
            (DispatchMessages (lastStartAfter last pre) rest).simDeltas,
        dispatchWarnings :=
          (DispatchMessages (lastStartAfter last pre) rest).dispatchWarnings } := by
  induction pre generalizing last with
  | nil => simp [normalDeltas, lastStartAfter]
  | cons it pre ih =>
      have hit : isQuietIteration it = true := h it (List.mem_cons_self it pre)
      have hrest : ∀ j ∈ pre, isQuietIteration j = true := fun j hj =>
        h j (List.mem_cons_of_mem it hj)
      rw [List.cons_append, DispatchMessages_cons_quiet last it (pre ++ rest) hit,
        ih it.now hrest, lastStartAfter_cons]
      simp [normalDeltas]

/-- KernelMain's happy path (src/kernel/main_win.cc line 157): once the main
window is created and shown, KernelMain returns DispatchMessages' exit code
verbatim. -/
def KernelMainLoopExit (last : Int) (script : List IterationInput) : Option Int :=
  (DispatchMessages last script).exitCode

/-- An SDL event as polled by the POSIX loop: SDL_QUIT (the claim speaks of a
carried code, so one is modelled) or any other event. -/
inductive SdlEvent : Type where
  | quit (code : Int) : SdlEvent
  | other (id : Nat) : SdlEvent
deriving DecidableEq

/-- Whether an SDL event is SDL_QUIT. -/
def isSdlQuit : SdlEvent → Bool
  | SdlEvent.quit _ => true
  | SdlEvent.other _ => false

/-- The inner SDL_PollEvent loop of src/whitebox-kernel/main.cc
DispatchMessages: every pending event of the burst is examined in order;
SDL_QUIT sets is_done (the switch break does not leave the polling loop), all
other events are skipped.  No field of the quit event is read. -/
def pollEvents : Bool → List SdlEvent → Bool
  | d, [] => d
  | d, e :: rest => pollEvents (d || isSdlQuit e) rest

/-- The POSIX/SDL DispatchMessages loop of src/whitebox-kernel/main.cc over a
finite script of event bursts: polls each burst, sleeps, and loops until
is_done; it then executes the literal statement return 0.  Returns none when
the script is exhausted while the loop still runs. -/
def DispatchMessagesPosix : List (List SdlEvent) → Option Int
  | [] => none
  | burst :: rest =>
      if pollEvents false burst then some 0 else DispatchMessagesPosix rest

/-- KernelMain on the POSIX path (src/whitebox-kernel/main.cc line 303):
after windowing setup it returns DispatchMessages() verbatim. -/
def KernelMainPosix (script : List (List SdlEvent)) : Option Int :=
  DispatchMessagesPosix script

/-- Renames the code carried by SDL quit events, leaving everything else
untouched; used to state that the loop result never depends on those codes. -/
def recodeSdlEvent (f : Int → Int) : SdlEvent → SdlEvent
  | SdlEvent.quit c => SdlEvent.quit (f c)
  | SdlEvent.other i => SdlEvent.other i

/-- LOAD_WITH_ALTERED_SEARCH_PATH (WinBase.h). -/
def LOAD_WITH_ALTERED_SEARCH_PATH : Nat := 0x00000008

/-- LOAD_LIBRARY_REQUIRE_SIGNED_TARGET (WinBase.h): bit 7. -/
def LOAD_LIBRARY_REQUIRE_SIGNED_TARGET : Nat := 0x00000080

/-- The shared-library load flags computed by BootmgrStartup
(src/apps/half-life-2/hl2_exe_main_win.cc lines 144-147):
LOAD_WITH_ALTERED_SEARCH_PATH, plus LOAD_LIBRARY_REQUIRE_SIGNED_TARGET exactly
when the insecure_allow_unsigned_module_target flag is false. -/
def bootManagerFlags (insecure_allow_unsigned_module_target : Bool) : Nat :=
  LOAD_WITH_ALTERED_SEARCH_PATH |||
    (if insecure_allow_unsigned_module_target then 0
     else LOAD_LIBRARY_REQUIRE_SIGNED_TARGET)

/-- The platform outcomes BootmgrStartup can observe: the result of
win::GetApplicationDirectory, whether ScopedSharedLibrary::FromLibraryOnPath
fails (with which error code), whether GetAddressAs fails (with which error
code), and the value BootmgrMain returns when it is actually invoked. -/
structure BootEnv : Type where
  appPath : Except Int String
  loadError : Option Int
  resolveError : Option Int
  entryReturn : Int

/-- The structured fatal-dialog payloads BootmgrStartup can emit: an
application-directory failure, a module-load failure carrying the module path,
or an entry-symbol resolution failure carrying the symbol name and the module
path. -/
inductive FatalPayload : Type where
  | dirError (ec : Int) : FatalPayload
  | loadError (ec : Int) (path : String) : FatalPayload
  | resolveError (ec : Int) (symbol : String) (path : String) : FatalPayload
deriving DecidableEq

/-- Observable trace of one BootmgrStartup call: whether (and with which path
and flags) the module load was attempted, whether symbol resolution was
attempted (and for which symbol), whether the entry point was invoked, the
fatal-dialog payloads emitted, and the returned exit code (none when a fatal
dialog terminated the process instead). -/
structure BootTrace : Type where
  loadCalled : Option (String × Nat)
  resolveCalled : Option String
  invokeCalled : Bool
  fatalDialogs : List FatalPayload
  exitCode : Option Int
deriving DecidableEq

/-- The boot-manager module name appended to the application directory
(src/apps/half-life-2/hl2_exe_main_win.cc line 141). -/
def kBootManagerModuleName : String := "whitebox-boot-manager.dll"

/-- The entry symbol name looked up in the boot manager module
(src/apps/half-life-2/hl2_exe_main_win.cc line 155). -/
def kBootManagerMainName : String := "BootmgrMain"

/-- BootmgrStartup (src/apps/half-life-2/hl2_exe_main_win.cc lines 109-200):
resolves the application directory (fatal dialog on failure), builds the
module path and load flags, loads the boot manager library (fatal dialog on
failure, no resolve, no invoke), resolves the BootmgrMain symbol (fatal dialog
carrying the symbol name and module path on failure, no invoke), and otherwise
invokes the entry point and returns its value. -/
def BootmgrStartup (insecure_allow_unsigned_module_target : Bool)
    (env : BootEnv) : BootTrace :=
  match env.appPath with
  | Except.error ec =>
      { loadCalled := none, resolveCalled := none, invokeCalled := false,
        fatalDialogs := [FatalPayload.dirError ec], exitCode := none }
  | Except.ok app_path =>
      let boot_manager_path := app_path ++ kBootManagerModuleName
      let boot_manager_flags :=
        bootManagerFlags insecure_allow_unsigned_module_target
      match env.loadError with
      | some ec =>
          { loadCalled := some (boot_manager_path, boot_manager_flags),
            resolveCalled := none, invokeCalled := false,
            fatalDialogs := [FatalPayload.loadError ec boot_manager_path],
            exitCode := none }
      | none =>
          match env.resolveError with
          | some ec =>
              { loadCalled := some (boot_manager_path, boot_manager_flags),
                resolveCalled := some kBootManagerMainName,
                invokeCalled := false,
                fatalDialogs :=
                  [FatalPayload.resolveError ec kBootManagerMainName
                    boot_manager_path],
                exitCode := none }
          | none =>
              { loadCalled := some (boot_manager_path, boot_manager_flags),
                resolveCalled := some kBootManagerMainName,
                invokeCalled := true, fatalDialogs := [],
                exitCode := some env.entryReturn }

/-- WinMain's tail call (src/apps/half-life-2/hl2_exe_main_win.cc line 310):
the launcher returns BootmgrStartup's value as the process exit status. -/
def WinMainExit (insecure_allow_unsigned_module_target : Bool)
    (env : BootEnv) : Option Int :=
  (BootmgrStartup insecure_allow_unsigned_module_target env).exitCode

/-- Modelled from the spec: the boot manager module itself
(whitebox-boot-manager, not under src/) loads the kernel module, invokes
KernelMain and forwards its return value unchanged (ExitCode is propagated
unchanged across every layer). -/
def BootmgrMain (kernelExitCode : Int) : Int := kernelExitCode

/-- The platform outcomes the Mac launcher main observes: whether the boot
manager framework load fails, whether the BootmgrMain lookup fails, and the
value the entry point returns when invoked. -/
structure MacBootEnv : Type where
  loadError : Option Int
  resolveError : Option Int
  entryReturn : Int
deriving DecidableEq

/-- The Mac launcher main (src/unnamed/part_003 lines 71-104): loads the boot
manager framework, resolves BootmgrMain and passes its return value rv to
exit(rv) unchanged; the fatal paths terminate before any invocation (none). -/
def macMain (env : MacBootEnv) : Option Int :=
  match env.loadError with
  | some _ => none
  | none =>
      match env.resolveError with
      | some _ => none
      | none => some env.entryReturn

/-- The exact spelling of the insecure override switch
(ABSL_FLAG insecure_allow_unsigned_module_target, default false,
src/apps/half-life-2/hl2_exe_main_win.cc lines 51-54). -/
def kInsecureSwitchName : String := "--insecure_allow_unsigned_module_target"

/-- Modelled from the spec: Abseil command-line parsing of the boolean
insecure_allow_unsigned_module_target flag (the Abseil implementation is a
vendored dependency, not under src/): the flag defaults to false and the last
occurrence of the switch on the command line wins. -/
def parseInsecureFlag (args : List String) : Bool :=
  args.foldl
    (fun acc a =>
      if a = "--insecure_allow_unsigned_module_target" then true
      else if a = "--insecure_allow_unsigned_module_target=true" then true
      else if a = "--insecure_allow_unsigned_module_target=false" then false
      else if a = "--noinsecure_allow_unsigned_module_target" then false
      else acc)
    false

/-- WinMain's debug-build command-line extension
(src/apps/half-life-2/hl2_exe_main_win.cc lines 217-235, _DEBUG path): the raw
command line unconditionally gets " --insecure_allow_unsigned_module_target"
appended before flag parsing, which at the argument level appends one trailing
switch token after whatever the user passed. -/
def debugCommandLineArgs (user_args : List String) : List String :=
  user_args ++ [kInsecureSwitchName]

/-- Modelled from the spec: InputQueue (kernel/input/input_queue.h is not
under src/): a thread-safe FIFO event buffer, modelled as the sequence of
queued events in arrival order. -/
structure InputQueue (T : Type) : Type where
  events : List T
deriving DecidableEq

/-- Modelled from the spec: Push appends one event, preserving arrival
order. -/
def InputQueue.Push {T : Type} (q : InputQueue T) (e : T) : InputQueue T :=
  { events := q.events ++ [e] }

/-- Modelled from the spec: DrainAll atomically removes and returns everything
queued, in FIFO order, leaving the queue empty; it is a plain (total,
non-blocking) operation. -/
def InputQueue.DrainAll {T : Type} (q : InputQueue T) :
    List T × InputQueue T :=
  (q.events, { events := [] })

/-- One step of an interleaving of queue operations. -/
inductive QueueOp (T : Type) : Type where
  | push (e : T) : QueueOp T
  | drainAll : QueueOp T
deriving DecidableEq

/-- Runs an interleaving of Push and DrainAll calls against a queue, returning
the final queue and every DrainAll result in call order. -/
def runQueueOps {T : Type} : InputQueue T → List (QueueOp T) →
    InputQueue T × List (List T)
  | q, [] => (q, [])
  | q, QueueOp.push e :: rest => runQueueOps (q.Push e) rest
  | q, QueueOp.drainAll :: rest =>
      let d := q.DrainAll
      let r := runQueueOps d.2 rest
      (r.1, d.1 :: r.2)

/-- The events pushed by an operation sequence, in push order. -/
def pushedEvents {T : Type} : List (QueueOp T) → List T
  | [] => []
  | QueueOp.push e :: rest => e :: pushedEvents rest
  | QueueOp.drainAll :: rest => pushedEvents rest

/-- std::set_new_handler: installs the given handler and returns the
previously installed one; the installed handler is the single piece of global
state.  Handlers are identified abstractly by naturals. -/
def set_new_handler (new_handler : Nat) (installed : Nat) : Nat × Nat :=
  (installed, new_handler)

/-- ScopedNewHandler (src/base/include/scoped_new_handler.h lines 26-42):
stores previous_new_handler_, the value std::set_new_handler returned while
installing the new handler. -/
structure ScopedNewHandler : Type where
  previous_new_handler_ : Nat
deriving DecidableEq

/-- The ScopedNewHandler constructor: previous_new_handler_ is initialised to
set_new_handler(new_handler); returns the constructed object and the new
global handler state. -/
def ScopedNewHandler.construct (new_handler : Nat) (installed : Nat) :
    ScopedNewHandler × Nat :=
  let r := set_new_handler new_handler installed
  ({ previous_new_handler_ := r.1 }, r.2)

/-- The ScopedNewHandler destructor: re-installs previous_new_handler_ and
returns the resulting global handler state. -/
def ScopedNewHandler.destruct (s : ScopedNewHandler) (installed : Nat) : Nat :=
  (set_new_handler s.previous_new_handler_ installed).2

theorem totalWarnings_eq (r : LoopRun) :
    totalWarnings r =
      r.dispatchWarnings +
        match r.exitCode with
        | some c => if c = 0 then 0 else 1
        | none => 0 := rfl

/-- The warnings iff non-zero exit property of one DispatchMessages run. -/
theorem totalWarnings_pos_iff (last : Int) (script : List IterationInput) :
    0 < totalWarnings (DispatchMessages last script) ↔
      ∃ c, (DispatchMessages last script).exitCode = some c ∧ c ≠ 0 := by
  induction script generalizing last with
  | nil => simp [DispatchMessages, totalWarnings]
  | cons it rest ih =>
      cases hd : it.dispatch with
      | error ec =>
          by_cases hec : ec = 0 <;>
            simp [DispatchMessages, hd, totalWarnings, hec]
      | msgs burst =>
          cases hp : pumpBurst burst with
          | some c =>
              by_cases hc : c = 0 <;>
                simp [DispatchMessages, hd, hp, totalWarnings, hc]
          | none =>
              have h2 := ih it.now
              simpa [DispatchMessages, hd, hp, totalWarnings] using h2

/-- Claim C1 counterexample: with the scripted burst [Move, KeyDown, Quit(42)]
the loop does stop with exit code 42, but SimulateWorldStep still runs once in
the very iteration in which the quit was pumped (the loop body completes its
timing bookkeeping and simulation call before the while condition is
rechecked), refuting the claim that no simulation step runs in the iteration
in which the quit was pumped. -/
theorem C1_counterexample :
    (DispatchMessages 0
        [{ dispatch :=
            DispatchResult.msgs [Msg.other 0, Msg.other 1, Msg.quit 42],
           now := 16 }]).exitCode = some 42 ∧
      (DispatchMessages 0
          [{ dispatch :=
              DispatchResult.msgs [Msg.other 0, Msg.other 1, Msg.quit 42],
             now := 16 }]).simDeltas = [16] := by
  exact ⟨rfl, by decide⟩

/-- Claim C1 (amended): once a quit message is pumped in a burst, the loop
stops with the quit message's carried exit code, ignoring the rest of the
script (the loop never restarts and no simulation step runs in any iteration
after the one in which the quit was pumped); the simulation step of the quit
iteration itself, however, still runs exactly once before the loop exits. -/
theorem C1_quit_stops_loop (last : Int) (pre : List IterationInput)
    (it : IterationInput) (rest : List IterationInput) (burst : List Msg)
    (c : Int) (hpre : ∀ j ∈ pre, isQuietIteration j = true)
    (hd : it.dispatch = DispatchResult.msgs burst)
    (hq : pumpBurst burst = some c) :
    DispatchMessages last (pre ++ it :: rest) =
      { exitCode := some c,
        simDeltas := normalDeltas last pre ++ [it.now - lastStartAfter last pre],
        dispatchWarnings := 0 } := by
  rw [DispatchMessages_quiet_append last pre (it :: rest) hpre]
  simp [DispatchMessages, hd, hq]

theorem C1_quit_stops_loop_witness :
    DispatchMessages 0
        [{ dispatch := DispatchResult.msgs [Msg.other 0], now := 5 },
         { dispatch := DispatchResult.msgs [Msg.other 1, Msg.quit 42], now := 10 },
         { dispatch := DispatchResult.msgs [Msg.quit 7], now := 20 }] =
      { exitCode := some 42, simDeltas := [5, 5], dispatchWarnings := 0 } :=
  (C1_quit_stops_loop 0
      [{ dispatch := DispatchResult.msgs [Msg.other 0], now := 5 }]
      { dispatch := DispatchResult.msgs [Msg.other 1, Msg.quit 42], now := 10 }
      [{ dispatch := DispatchResult.msgs [Msg.quit 7], now := 20 }]
      [Msg.other 1, Msg.quit 42] 42 (by decide) rfl rfl).trans (by decide)

/-- Claim C5: an abnormal dispatch condition stops the loop like quit does:
its code is captured as the loop's exit code, no simulation step runs in that
iteration, no further iteration runs and the loop never restarts (the rest of
the script is ignored); and on every terminating run — dispatch error or quit
— a warning is logged iff the terminal exit code is non-zero, termination
with code zero being silent. -/
theorem C5_dispatch_error_stops_loop :
    (∀ (last : Int) (pre : List IterationInput) (it : IterationInput)
        (rest : List IterationInput) (ec : Int),
        (∀ j ∈ pre, isQuietIteration j = true) →
        it.dispatch = DispatchResult.error ec →
        DispatchMessages last (pre ++ it :: rest) =
          { exitCode := some ec, simDeltas := normalDeltas last pre,
            dispatchWarnings := if ec = 0 then 0 else 1 }) ∧
    (∀ (last : Int) (script : List IterationInput),
        0 < totalWarnings (DispatchMessages last script) ↔
          ∃ c, (DispatchMessages last script).exitCode = some c ∧ c ≠ 0) := by
  constructor
  · intro last pre it rest ec hpre hd
    rw [DispatchMessages_quiet_append last pre (it :: rest) hpre]
    simp [DispatchMessages, hd]
  · exact totalWarnings_pos_iff

theorem C5_dispatch_error_stops_loop_witness :
    DispatchMessages 0
        [{ dispatch := DispatchResult.msgs [Msg.other 0], now := 5 },
         { dispatch := DispatchResult.error 3, now := 10 },
         { dispatch := DispatchResult.msgs [Msg.other 1], now := 20 }] =
      { exitCode := some 3, simDeltas := [5], dispatchWarnings := 1 } ∧
    (0 < totalWarnings (DispatchMessages 0
        [{ dispatch := DispatchResult.msgs [Msg.other 0], now := 5 },
         { dispatch := DispatchResult.error 3, now := 10 },
         { dispatch := DispatchResult.msgs [Msg.other 1], now := 20 }]) ↔
      ∃ c, (DispatchMessages 0
          [{ dispatch := DispatchResult.msgs [Msg.other 0], now := 5 },
           { dispatch := DispatchResult.error 3, now := 10 },
           { dispatch := DispatchResult.msgs [Msg.other 1], now := 20 }]).exitCode
          = some c ∧ c ≠ 0) :=
  ⟨(C5_dispatch_error_stops_loop.1 0
        [{ dispatch := DispatchResult.msgs [Msg.other 0], now := 5 }]
        { dispatch := DispatchResult.error 3, now := 10 }
        [{ dispatch := DispatchResult.msgs [Msg.other 1], now := 20 }] 3
        (by decide) rfl).trans (by decide),
    C5_dispatch_error_stops_loop.2 0
      [{ dispatch := DispatchResult.msgs [Msg.other 0], now := 5 },
       { dispatch := DispatchResult.error 3, now := 10 },
       { dispatch := DispatchResult.msgs [Msg.other 1], now := 20 }]⟩

/-- Claim C6: every quiet iteration passes delta_time = now - previous start
time to SimulateWorldStep and updates the start time, so a quiet script
produces exactly the successive clock differences; in particular for two
consecutive iterations with monotonic timestamps t1 < t2 (the first quiet, the
second pumping messages), the second delta time equals t2 - t1 and is
non-negative. -/
theorem C6_delta_time_is_clock_difference :
    (∀ (last : Int) (script : List IterationInput),
        (∀ j ∈ script, isQuietIteration j = true) →
        (DispatchMessages last script).simDeltas = normalDeltas last script) ∧
    (∀ (last : Int) (it1 it2 : IterationInput) (rest : List IterationInput)
        (burst2 : List Msg),
        isQuietIteration it1 = true →
        it2.dispatch = DispatchResult.msgs burst2 →
        it1.now < it2.now →
        (DispatchMessages last (it1 :: it2 :: rest)).simDeltas[1]? =
            some (it2.now - it1.now) ∧
          0 ≤ it2.now - it1.now) := by
  constructor
  · intro last script h
    have h2 := DispatchMessages_quiet_append last script [] h
    rw [List.append_nil] at h2
    rw [h2]
    simp [DispatchMessages]
  · intro last it1 it2 rest burst2 h1 hd2 hlt
    refine ⟨?_, by omega⟩
    rw [DispatchMessages_cons_quiet last it1 (it2 :: rest) h1]
    cases hp : pumpBurst burst2 with
    | some c => simp [DispatchMessages, hd2, hp]
    | none => simp [DispatchMessages, hd2, hp]

theorem C6_delta_time_is_clock_difference_witness :
    (DispatchMessages 0
        [{ dispatch := DispatchResult.msgs [Msg.other 0], now := 100 },
         { dispatch := DispatchResult.msgs [], now := 200 }]).simDeltas =
      [100, 100] ∧
    ((DispatchMessages 0
        [{ dispatch := DispatchResult.msgs [Msg.other 0], now := 100 },
         { dispatch := DispatchResult.msgs [], now := 200 }]).simDeltas[1]? =
        some 100 ∧
      (0 : Int) ≤ 100) :=
  ⟨(C6_delta_time_is_clock_difference.1 0
        [{ dispatch := DispatchResult.msgs [Msg.other 0], now := 100 },
         { dispatch := DispatchResult.msgs [], now := 200 }]
        (by decide)).trans (by decide),
    by
      have h := C6_delta_time_is_clock_difference.2 0
        { dispatch := DispatchResult.msgs [Msg.other 0], now := 100 }
        { dispatch := DispatchResult.msgs [], now := 200 } [] []
        (by decide) rfl (by decide)
      simpa using h⟩

/-- Claim C2: the exit code is propagated unchanged across every layer: on the
happy path the launcher (WinMain returning BootmgrStartup's value) returns
exactly the value the loaded boot manager entry point returned; the boot
manager forwards the kernel's exit code unchanged; the Mac launcher passes the
entry point's return value to exit() unchanged; and a loop terminated by a
quit message makes KernelMain return that quit's carried code unchanged. -/
theorem C2_exit_code_propagated_unchanged :
    (∀ (insecure : Bool) (env : BootEnv) (p : String),
        env.appPath = Except.ok p →
        env.loadError = none →
        env.resolveError = none →
        WinMainExit insecure env = some env.entryReturn ∧
          (BootmgrStartup insecure env).invokeCalled = true) ∧
    (∀ c : Int, BootmgrMain c = c) ∧
    (∀ env : MacBootEnv,
        env.loadError = none →
        env.resolveError = none →
        macMain env = some env.entryReturn) ∧
    (∀ (last : Int) (pre : List IterationInput) (it : IterationInput)
        (rest : List IterationInput) (burst : List Msg) (c : Int),
        (∀ j ∈ pre, isQuietIteration j = true) →
        it.dispatch = DispatchResult.msgs burst →
        pumpBurst burst = some c →
        KernelMainLoopExit last (pre ++ it :: rest) = some c) := by
  refine ⟨?_, fun c => rfl, ?_, ?_⟩
  · intro insecure env p hp hl hr
    constructor <;> simp [WinMainExit, BootmgrStartup, hp, hl, hr]
  · intro env hl hr
    simp [macMain, hl, hr]
  · intro last pre it rest burst c hpre hd hq
    rw [KernelMainLoopExit, DispatchMessages_quiet_append last pre (it :: rest) hpre]
    simp [DispatchMessages, hd, hq]

theorem C2_exit_code_propagated_unchanged_witness :
    WinMainExit false
        { appPath := Except.ok "C:/hl2/", loadError := none,
          resolveError := none, entryReturn := 7 } = some 7 ∧
      BootmgrMain 7 = 7 ∧
      macMain { loadError := none, resolveError := none, entryReturn := 7 } =
        some 7 ∧
      KernelMainLoopExit 0
          [{ dispatch := DispatchResult.msgs [Msg.quit 42], now := 16 }] =
        some 42 :=
  ⟨(C2_exit_code_propagated_unchanged.1 false
      { appPath := Except.ok "C:/hl2/", loadError := none,
        resolveError := none, entryReturn := 7 } "C:/hl2/" rfl rfl rfl).1,
    C2_exit_code_propagated_unchanged.2.1 7,
    C2_exit_code_propagated_unchanged.2.2.1
      { loadError := none, resolveError := none, entryReturn := 7 } rfl rfl,
    C2_exit_code_propagated_unchanged.2.2.2 0 []
      { dispatch := DispatchResult.msgs [Msg.quit 42], now := 16 } []
      [Msg.quit 42] 42 (by decide) rfl rfl⟩

/-- Claim C3: the load flags contain LOAD_LIBRARY_REQUIRE_SIGNED_TARGET (bit
7) exactly when insecure_allow_unsigned_module_target is false (its default);
and when the library load fails the loader emits exactly one fatal-dialog
report carrying a module-load error, and neither symbol resolution nor the
entry-point invocation ever happens. -/
theorem C3_signed_target_required_iff_secure :
    (∀ insecure : Bool,
        Nat.testBit (bootManagerFlags insecure) 7 = !insecure) ∧
    (∀ (insecure : Bool) (env : BootEnv) (p : String) (ec : Int),
        env.appPath = Except.ok p →
        env.loadError = some ec →
        BootmgrStartup insecure env =
          { loadCalled :=
              some (p ++ kBootManagerModuleName, bootManagerFlags insecure),
            resolveCalled := none, invokeCalled := false,
            fatalDialogs :=
              [FatalPayload.loadError ec (p ++ kBootManagerModuleName)],
            exitCode := none }) := by
  constructor
  · intro insecure
    cases insecure <;> decide
  · intro insecure env p ec hp hl
    simp [BootmgrStartup, hp, hl]

theorem C3_signed_target_required_iff_secure_witness :
    Nat.testBit (bootManagerFlags false) 7 = true ∧
      BootmgrStartup false
          { appPath := Except.ok "C:/hl2/", loadError := some 5,
            resolveError := none, entryReturn := 0 } =
        { loadCalled := some ("C:/hl2/whitebox-boot-manager.dll", 136),
          resolveCalled := none, invokeCalled := false,
          fatalDialogs :=
            [FatalPayload.loadError 5 "C:/hl2/whitebox-boot-manager.dll"],
          exitCode := none } :=
  ⟨C3_signed_target_required_iff_secure.1 false,
    (C3_signed_target_required_iff_secure.2 false
        { appPath := Except.ok "C:/hl2/", loadError := some 5,
          resolveError := none, entryReturn := 0 } "C:/hl2/" 5 rfl
        rfl).trans (by decide)⟩

/-- Claim C4: when the module loads but the exact-name entry-symbol lookup
fails, BootmgrStartup emits exactly one fatal-dialog report whose payload is a
symbol-resolution error carrying the symbol name (BootmgrMain) and the module
path, and the nonexistent entry point is never invoked. -/
theorem C4_resolve_failure_never_invokes (insecure : Bool) (env : BootEnv)
    (p : String) (ec : Int) (hp : env.appPath = Except.ok p)
    (hl : env.loadError = none) (hr : env.resolveError = some ec) :
    BootmgrStartup insecure env =
      { loadCalled :=
          some (p ++ kBootManagerModuleName, bootManagerFlags insecure),
        resolveCalled := some kBootManagerMainName,
        invokeCalled := false,
        fatalDialogs :=
          [FatalPayload.resolveError ec kBootManagerMainName
            (p ++ kBootManagerModuleName)],
        exitCode := none } := by
  simp [BootmgrStartup, hp, hl, hr]

theorem C4_resolve_failure_never_invokes_witness :
    BootmgrStartup false
        { appPath := Except.ok "C:/hl2/", loadError := none,
          resolveError := some 127, entryReturn := 0 } =
      { loadCalled := some ("C:/hl2/whitebox-boot-manager.dll", 136),
        resolveCalled := some "BootmgrMain", invokeCalled := false,
        fatalDialogs :=
          [FatalPayload.resolveError 127 "BootmgrMain"
            "C:/hl2/whitebox-boot-manager.dll"],
        exitCode := none } :=
  (C4_resolve_failure_never_invokes false
      { appPath := Except.ok "C:/hl2/", loadError := none,
        resolveError := some 127, entryReturn := 0 } "C:/hl2/" 127 rfl rfl
      rfl).trans (by decide)

/-- Conservation of events: at any point the already-drained events followed
by what is still queued are exactly the initial contents followed by the
pushes, in order. -/
theorem runQueueOps_join_append {T : Type} (ops : List (QueueOp T))
    (q : InputQueue T) :
    ((runQueueOps q ops).2).flatten ++ (runQueueOps q ops).1.events =
      q.events ++ pushedEvents ops := by
  induction ops generalizing q with
  | nil => simp [runQueueOps, pushedEvents]
  | cons op rest ih =>
      cases op with
      | push e =>
          rw [runQueueOps, pushedEvents, ih (q.Push e)]
          simp [InputQueue.Push]
      | drainAll =>
          rw [runQueueOps, pushedEvents]
          simp only [InputQueue.DrainAll, List.flatten_cons]
          rw [List.append_assoc, ih { events := [] }]
          simp

/-- A trailing DrainAll leaves the queue empty. -/
theorem runQueueOps_final_empty {T : Type} (ops : List (QueueOp T))
    (q : InputQueue T) :
    (runQueueOps q (ops ++ [QueueOp.drainAll])).1 = { events := [] } := by
  induction ops generalizing q with
  | nil => rfl
  | cons op rest ih =>
      cases op with
      | push e => rw [List.cons_append, runQueueOps]; exact ih (q.Push e)
      | drainAll => rw [List.cons_append, runQueueOps]; exact ih { events := [] }

/-- A trailing DrainAll drains no pushes of its own. -/
theorem pushedEvents_append_drain {T : Type} (ops : List (QueueOp T)) :
    pushedEvents (ops ++ [QueueOp.drainAll]) = pushedEvents ops := by
  induction ops with
  | nil => rfl
  | cons op rest ih =>
      cases op with
      | push e => rw [List.cons_append, pushedEvents, pushedEvents, ih]
      | drainAll => rw [List.cons_append, pushedEvents, pushedEvents, ih]

/-- Claim C7: for every interleaving of Push and DrainAll calls starting from
an empty queue, the concatenation of the DrainAll results in call order
followed by what is still queued equals the Push order exactly — no event
lost, duplicated or reordered; when the interleaving ends in a DrainAll the
concatenation alone equals the Push order; and DrainAll on an empty queue
returns an empty sequence and leaves the queue empty (it is a total function,
hence never blocks). -/
theorem C7_input_queue_fifo :
    (∀ (T : Type) (ops : List (QueueOp T)),
        ((runQueueOps { events := [] } ops).2).flatten ++
            (runQueueOps { events := [] } ops).1.events = pushedEvents ops) ∧
    (∀ (T : Type) (ops : List (QueueOp T)),
        ((runQueueOps { events := [] } (ops ++ [QueueOp.drainAll])).2).flatten =
          pushedEvents ops) ∧
    (∀ T : Type,
        InputQueue.DrainAll ({ events := [] } : InputQueue T) =
          ([], { events := [] })) := by
  refine ⟨?_, ?_, fun T => rfl⟩
  · intro T ops
    simpa using runQueueOps_join_append ops { events := [] }
  · intro T ops
    have h := runQueueOps_join_append (ops ++ [QueueOp.drainAll])
      ({ events := [] } : InputQueue T)
    rw [runQueueOps_final_empty, pushedEvents_append_drain] at h
    simpa using h

/-- Event recoding does not change whether an event is SDL_QUIT. -/
theorem isSdlQuit_recode (f : Int → Int) (e : SdlEvent) :
    isSdlQuit (recodeSdlEvent f e) = isSdlQuit e := by
  cases e <;> rfl

/-- The inner poll loop ignores quit codes entirely. -/
theorem pollEvents_recode (f : Int → Int) (burst : List SdlEvent) (d : Bool) :
    pollEvents d (burst.map (recodeSdlEvent f)) = pollEvents d burst := by
  induction burst generalizing d with
  | nil => rfl
  | cons e rest ih =>
      rw [List.map_cons, pollEvents, pollEvents, isSdlQuit_recode]
      exact ih (d || isSdlQuit e)

/-- Claim C8: the SDL/POSIX DispatchMessages loop of
src/whitebox-kernel/main.cc can only return 0 — whatever event script it
sees, it either keeps running or returns 0; its result is invariant under
arbitrary rewriting of the codes carried by quit events (the code is never
read); and KernelMain on that path reports the loop's value verbatim, hence
always 0, even when the quit carries a non-zero code. -/
theorem C8_posix_loop_always_returns_zero :
    (∀ script : List (List SdlEvent),
        DispatchMessagesPosix script = none ∨
          DispatchMessagesPosix script = some 0) ∧
    (∀ (f : Int → Int) (script : List (List SdlEvent)),
        DispatchMessagesPosix (script.map (List.map (recodeSdlEvent f))) =
          DispatchMessagesPosix script) ∧
    (∀ script : List (List SdlEvent),
        KernelMainPosix script = DispatchMessagesPosix script) := by
  refine ⟨?_, ?_, fun script => rfl⟩
  · intro script
    induction script with
    | nil => exact Or.inl rfl
    | cons burst rest ih =>
        rw [DispatchMessagesPosix]
        by_cases h : pollEvents false burst = true
        · rw [if_pos h]; exact Or.inr rfl
        · rw [if_neg h]; exact ih
  · intro f script
    induction script with
    | nil => rfl
    | cons burst rest ih =>
        rw [List.map_cons, DispatchMessagesPosix, DispatchMessagesPosix,
          pollEvents_recode, ih]

/-- Claim C9: in debug builds WinMain unconditionally appends the
--insecure_allow_unsigned_module_target switch to the command line before
flag parsing, so whatever the user passed, the parsed flag is true and the
computed load flags omit LOAD_LIBRARY_REQUIRE_SIGNED_TARGET — every
debug-build run disables the loader's module-signature enforcement. -/
theorem C9_debug_build_disables_signature_enforcement :
    ∀ user_args : List String,
      parseInsecureFlag (debugCommandLineArgs user_args) = true ∧
        Nat.testBit
            (bootManagerFlags
              (parseInsecureFlag (debugCommandLineArgs user_args))) 7 =
          false := by
  intro user_args
  have h : parseInsecureFlag (debugCommandLineArgs user_args) = true := by
    rw [debugCommandLineArgs, parseInsecureFlag, List.foldl_append]
    simp [kInsecureSwitchName]
  exact ⟨h, by rw [h]; decide⟩

/-- Claim C10: ScopedNewHandler round-trips the global new-handler: for every
handler h and prior handler p, construction installs h (and records p), and
destruction re-installs exactly p. -/
theorem C10_scoped_new_handler_round_trip :
    ∀ new_handler previous : Nat,
      (ScopedNewHandler.construct new_handler previous).2 = new_handler ∧
        (ScopedNewHandler.construct new_handler previous).1.previous_new_handler_
            = previous ∧
        ScopedNewHandler.destruct
            (ScopedNewHandler.construct new_handler previous).1
            (ScopedNewHandler.construct new_handler previous).2 = previous :=
  fun _ _ => ⟨rfl, rfl, rfl⟩

end Whitebox
